import Mathlib

/-!
Verification of the Foodgram backend core (src/backend/api/views.py and the
data model declared in src/backend/recipes/migrations) against its
specification. Entities are embedded shallowly: a relational store is a list
of records, many-to-many relations are the lists of primary keys that the
Django model fields declare, and each view function becomes a pure function
from the request data and the store to a response together with the updated
store. Exceptions of the web framework are modelled with Except.
-/

namespace Foodgram

/- ===== Data model =====
Fields follow recipes/migrations/0002_initial.py and 0004_auto_20240102_2017.py:
Recipe has M2M `favorites` and `groceries_list` to User, M2M `ingredients`
through RecipesIngredients; Ingredient is unique on (name, measurement_unit);
RecipesIngredients is unique on (recipe, ingredient). Only the attributes the
verified views read are carried. -/

structure Ingredient where
  id : Nat
  name : String
  measurement_unit : String
deriving DecidableEq, Repr

structure RecipesIngredients where
  recipe_id : Nat
  ingredient_id : Nat
  amount : Nat
deriving DecidableEq, Repr

structure Recipe where
  id : Nat
  name : String
  image : String
  cooking_time : Nat
  /-- pks of the users that favorited this recipe (M2M field `favorites`). -/
  favorites : List Nat
  /-- pks of the users holding this recipe in their cart (M2M `groceries_list`). -/
  groceries_list : List Nat
deriving DecidableEq, Repr

structure User where
  id : Nat
  username : String
  email : String
  first_name : String
  last_name : String
  is_active : Bool
deriving DecidableEq, Repr

/-- users.models.Subscription: subscriber pk and target pk. -/
structure Subscription where
  user : Nat
  subscription : Nat
deriving DecidableEq, Repr

/- ===== Responses and framework exceptions ===== -/

/-- The response bodies the verified views produce. Human-readable `detail`
messages are abbreviated to English placeholders; no claim depends on the
message text. -/
inductive Body where
  | empty
  | briefRecipe (id : Nat) (name : String) (image : String) (cooking_time : Nat)
  | identity (email : String) (username : String)
  | userView (username : String) (email : String) (first_name : String) (last_name : String)
  | detail (msg : String)
deriving DecidableEq, Repr

structure Response where
  statusCode : Nat
  body : Body
deriving DecidableEq, Repr

/-- Exceptions that flow through the verified views. `doesNotExist` is the
`Model.DoesNotExist` raised by `Model.objects.get`, `http404` is raised by
`get_object_or_404`, `validationError` is DRF ValidationError. -/
inductive DjangoError where
  | doesNotExist
  | http404
  | validationError
deriving DecidableEq, Repr

/-- Status code the framework's exception handler gives to an exception that
escapes the view: DRF maps Http404 to a 404 client error and ValidationError
to a 400 client error; an exception it does not handle (such as
Model.DoesNotExist) propagates and the server answers 500. -/
def frameworkStatus : DjangoError → Nat
  | .http404 => 404
  | .validationError => 400
  | .doesNotExist => 500

/-- `Recipe.objects.get(pk=pk)`: raises Recipe.DoesNotExist when no row matches. -/
def objectsGetRecipe (recipes : List Recipe) (pk : Nat) : Except DjangoError Recipe :=
  match recipes.find? (fun r => r.id == pk) with
  | some r => .ok r
  | none => .error .doesNotExist

/-- `get_object_or_404(Recipe, pk=pk)`: raises Http404 when no row matches. -/
def getObjectOr404Recipe (recipes : List Recipe) (pk : Nat) : Except DjangoError Recipe :=
  match recipes.find? (fun r => r.id == pk) with
  | some r => .ok r
  | none => .error .http404

/-- `get_object_or_404(User, pk=pk)`. -/
def getObjectOr404User (users : List User) (pk : Nat) : Except DjangoError User :=
  match users.find? (fun u => u.id == pk) with
  | some u => .ok u
  | none => .error .http404

/- ===== C1: RecipeViewSet.get_queryset =====
The view annotates the queryset with
  is_favorited = Case(When(favorites__pk=user.pk, then=Value(True)), default=Value(False))
and likewise is_in_shopping_cart over groceries_list. Django compiles each
`When(favorites__pk=...)` condition by LEFT OUTER JOINing the favorites
through table (annotations never shrink the base row set, so the join is
promoted to LEFT OUTER) and evaluates the CASE per joined row: a recipe with
n favoriting users contributes n rows, a recipe with none contributes one
NULL-extended row. A lookup value of None — `user.pk` of an AnonymousUser —
is Django's documented idiom for `IS NULL` and matches exactly the
NULL-extended row. The two annotations join independently, so the rows are
the product of the two left joins. -/

/-- Rows contributed by one recipe's side of a LEFT OUTER JOIN on an M2M
link list: one row per linked pk, or a single NULL row when there is none. -/
def leftJoinRows (links : List Nat) : List (Option Nat) :=
  match links with
  | [] => [none]
  | _ => links.map some

/-- SQL comparison of a (possibly NULL) joined column with a lookup value:
Django turns an exact lookup against None into `IS NULL`. -/
def sqlNullEq (column : Option Nat) (value : Option Nat) : Bool :=
  match value with
  | none => column.isNone
  | some v => column == some v

structure AnnotatedRecipe where
  recipe : Recipe
  is_favorited : Bool
  is_in_shopping_cart : Bool
deriving DecidableEq, Repr

/-- RecipeViewSet.get_queryset for requesting user pk `userPk`
(`none` for an anonymous requester). -/
def get_queryset (userPk : Option Nat) (recipes : List Recipe) : List AnnotatedRecipe :=
  recipes.flatMap (fun r =>
    (leftJoinRows r.favorites).flatMap (fun fav =>
      (leftJoinRows r.groceries_list).map (fun cart =>
        { recipe := r
          is_favorited := sqlNullEq fav userPk
          is_in_shopping_cart := sqlNullEq cart userPk })))

/- ===== C2: RecipeViewSet.download_shopping_cart =====
  RecipesIngredients.objects.filter(recipe__groceries_list=user)
    .values(ingredient_name, measurement_unit).annotate(total=Coalesce(Sum(amount), 0))
The filter keeps the RecipesIngredients rows whose recipe the user holds in
the cart (the (recipe, user) through pair is unique, so no row duplication);
values().annotate(Sum) groups the surviving rows by the ingredient's
(name, measurement_unit) — an inner join on the non-null ingredient FK —
and sums `amount` per group, groups appearing in first-occurrence order. -/

/-- The RecipesIngredients rows of the recipes in the cart of user `userPk`. -/
def cartRows (userPk : Nat) (recipes : List Recipe) (ris : List RecipesIngredients) :
    List RecipesIngredients :=
  ris.filter (fun row =>
    recipes.any (fun r => r.id == row.recipe_id && r.groceries_list.contains userPk))

structure ShoppingItem where
  ingredient_name : String
  measurement_unit : String
  total_amount : Nat
deriving DecidableEq, Repr

/-- Add one amount to the group of key (n, u), creating the group on first
occurrence (GROUP BY accumulation). -/
def addToGroups (gs : List ShoppingItem) (n u : String) (a : Nat) : List ShoppingItem :=
  match gs with
  | [] => [⟨n, u, a⟩]
  | g :: rest =>
      if g.ingredient_name == n && g.measurement_unit == u then
        { g with total_amount := g.total_amount + a } :: rest
      else
        g :: addToGroups rest n u a

/-- Process one RecipesIngredients row: resolve its ingredient FK and add its
amount to that ingredient's group. The FK is non-null in the schema, so a
dangling id cannot occur in a real store; such a row is skipped. -/
def shoppingStep (ings : List Ingredient) (gs : List ShoppingItem)
    (row : RecipesIngredients) : List ShoppingItem :=
  match ings.find? (fun i => i.id == row.ingredient_id) with
  | some ing => addToGroups gs ing.name ing.measurement_unit row.amount
  | none => gs

/-- The grouped, summed shopping list the download_shopping_cart view renders. -/
def download_shopping_cart (userPk : Nat) (recipes : List Recipe)
    (ris : List RecipesIngredients) (ings : List Ingredient) : List ShoppingItem :=
  (cartRows userPk recipes ris).foldl (shoppingStep ings) []

/-- Exported total for key (n, u): the group's sum, or 0 when absent. -/
def totalFor (gs : List ShoppingItem) (n u : String) : Nat :=
  match gs.find? (fun g => g.ingredient_name == n && g.measurement_unit == u) with
  | some g => g.total_amount
  | none => 0

/-- Whether key (n, u) appears in the export at all. -/
def hasKey (gs : List ShoppingItem) (n u : String) : Bool :=
  gs.any (fun g => g.ingredient_name == n && g.measurement_unit == u)

/-- The amount a single row contributes to key (n, u): its `amount` when its
ingredient resolves to that key, 0 otherwise. -/
def rowKeyAmount (ings : List Ingredient) (n u : String)
    (row : RecipesIngredients) : Nat :=
  match ings.find? (fun i => i.id == row.ingredient_id) with
  | some ing => if ing.name == n && ing.measurement_unit == u then row.amount else 0
  | none => 0

/-- Whether a single row references an ingredient with key (n, u). -/
def rowResolvesKey (ings : List Ingredient) (n u : String)
    (row : RecipesIngredients) : Bool :=
  match ings.find? (fun i => i.id == row.ingredient_id) with
  | some ing => ing.name == n && ing.measurement_unit == u
  | none => false

/- ===== C3, C4: RecipeViewSet.cart_favorite_method =====
`table` is the related manager through which the requesting user's side of
the M2M is reached (user.favorites or user.groceries_list): the pks of the
recipes currently in that relation. The source does
  try: recipe = Recipe.objects.get(pk=pk)
  except Http404: raise ValidationError
  relation = table.filter(pk=recipe.pk)
  if relation.exists(): return Response(status=400)
  table.add(recipe); return Response(brief(recipe), status=201)
Note the except clause names Http404, though objects.get raises
Recipe.DoesNotExist; the handler below is faithful to that. -/

/-- Rewrites the exception of the `try` block the way the source's
`except Http404: raise ValidationError` does: only Http404 is caught. -/
def catchHttp404AsValidation : DjangoError → DjangoError
  | .http404 => .validationError
  | e => e

def cart_favorite_method (recipes : List Recipe) (pk : Nat) (table : List Nat) :
    Except DjangoError (Response × List Nat) :=
  match objectsGetRecipe recipes pk with
  | .error e => .error (catchHttp404AsValidation e)
  | .ok recipe =>
      if table.contains recipe.id then
        .ok ({ statusCode := 400, body := .empty }, table)
      else
        .ok ({ statusCode := 201
               body := .briefRecipe recipe.id recipe.name recipe.image recipe.cooking_time },
             table ++ [recipe.id])

/- ===== C7: RecipeViewSet.cart_favorite_method_delete =====
  recipe = get_object_or_404(Recipe, pk=pk)
  relation = table.filter(pk=recipe.pk)
  if relation.exists(): table.remove(recipe); return Response(status=204)
  return Response(status=400)
`table.remove` deletes every through row of the pair; the pair is unique so
it removes the membership of recipe.id from the user's side of the relation. -/

def cart_favorite_method_delete (recipes : List Recipe) (pk : Nat) (table : List Nat) :
    Except DjangoError (Response × List Nat) :=
  match getObjectOr404Recipe recipes pk with
  | .error e => .error e
  | .ok recipe =>
      if table.contains recipe.id then
        .ok ({ statusCode := 204, body := .empty }, table.filter (fun x => x != recipe.id))
      else
        .ok ({ statusCode := 400, body := .empty }, table)

/- ===== C5: SubscribeUserAPIView.post =====
  subscription = get_object_or_404(User, pk=pk)
  user_subscriptions = Subscription.objects.filter(user=user, subscription=subscription)
  if user == subscription: return 400
  if user_subscriptions.exists(): return 400
  Subscription.objects.create(...); return 201 with the subscription view
Django model instances compare equal iff they have the same class and pk, so
`user == subscription` is a pk comparison. -/

def subscribe_post (users : List User) (subs : List Subscription)
    (userPk : Nat) (pk : Nat) : Except DjangoError (Response × List Subscription) :=
  match getObjectOr404User users pk with
  | .error e => .error e
  | .ok target =>
      if userPk == target.id then
        .ok ({ statusCode := 400, body := .detail "cannot subscribe to yourself" }, subs)
      else if subs.any (fun s => s.user == userPk && s.subscription == target.id) then
        .ok ({ statusCode := 400, body := .detail "already subscribed" }, subs)
      else
        .ok ({ statusCode := 201, body := .detail "subscription view of target" },
             subs ++ [{ user := userPk, subscription := target.id }])

/- ===== C6: UserViewSet.create =====
  try: existing_user = User.objects.get(username=..., email=...)
       existing_user.save(); return Response({email, username}, 200)
  except User.DoesNotExist: pass
  return super().create(...)
`existing_user.save()` rewrites the matched row with its own values and adds
nothing. The fallthrough runs the framework's create with
UserCreateSerializer, whose save inserts one row. -/

/-- Modelled from the spec: UserCreateSerializer and its save are not under
src/ (serializers.py is absent); per the spec a registration with a fresh
(username, email) pair "creates exactly one new account", so a successful
serializer save appends one User row carrying the submitted identity. -/
def serializer_save_new_user (users : List User) (nextId : Nat)
    (username email : String) : List User :=
  users ++ [{ id := nextId, username := username, email := email,
              first_name := "", last_name := "", is_active := true }]

def user_create (users : List User) (nextId : Nat) (username email : String) :
    Response × List User :=
  match users.find? (fun u => u.username == username && u.email == email) with
  | some _ =>
      ({ statusCode := 200, body := .identity email username }, users)
  | none =>
      ({ statusCode := 201, body := .identity email username },
       serializer_save_new_user users nextId username email)

/- ===== C8: TokenLogoutView.post =====
  try:
    access_token = request.auth; refresh_token = request.data.get('refresh_token')
    if access_token: OutstandingToken.objects.filter(token=access_token).delete()
    if refresh_token: RefreshToken(refresh_token).blacklist()
  except Exception: return Response({'detail': ...}, status=401)
  return Response(status=204)
Every revocation step runs inside the try; constructing RefreshToken raises
(TokenError, an Exception) on an invalid or expired token, which the except
clause turns into a 401 authentication-failure response. -/

inductive TokenFault where
  /-- any Exception raised while revoking, e.g. TokenError from RefreshToken(...) -/
  | tokenError
deriving DecidableEq, Repr

structure TokenState where
  outstanding : List String
  blacklist : List String
deriving DecidableEq, Repr

/-- The body of the `try` block: delete the outstanding access token, then
blacklist the refresh token, raising when the refresh token does not parse
as a valid RefreshToken (`validRefresh` is the simplejwt validity check). -/
def revoke_credentials (access refreshTok : Option String)
    (validRefresh : String → Bool) (st : TokenState) : Except TokenFault TokenState :=
  let st1 := match access with
    | some a => { st with outstanding := st.outstanding.filter (fun t => t != a) }
    | none => st
  match refreshTok with
  | none => .ok st1
  | some r =>
      if validRefresh r then .ok { st1 with blacklist := st1.blacklist ++ [r] }
      else .error .tokenError

def token_logout_post (access refreshTok : Option String)
    (validRefresh : String → Bool) (st : TokenState) : Response × TokenState :=
  match revoke_credentials access refreshTok validRefresh st with
  | .ok st2 => ({ statusCode := 204, body := .empty }, st2)
  | .error _ => ({ statusCode := 401, body := .detail "credentials were not provided" }, st)

/- ===== C9: UserViewSet.me =====
  user = request.user
  serializer = UserBasicSerializer(user, data=request.data, partial=True, ...)
  if serializer.is_valid(): serializer.save(); return Response(serializer.data)
  return Response(serializer.errors, status=400)
Although routed as GET, the view binds the request body to the serializer
and saves it. ModelSerializer update with partial=True sets exactly the
fields present in the body and keeps the rest (documented framework
behavior; serializers.py is not under src/, its field validation is the
abstract `isValid` flag). -/

/-- Fields a request body may carry for the user serializer; `none` means
the field is absent from the body. -/
structure UserUpdateData where
  username : Option String
  email : Option String
  first_name : Option String
  last_name : Option String
deriving DecidableEq, Repr

def emptyUpdate : UserUpdateData :=
  { username := none, email := none, first_name := none, last_name := none }

/-- ModelSerializer.update with partial=True: provided fields replace the
stored ones, absent fields are untouched. -/
def serializer_update_user (u : User) (d : UserUpdateData) : User :=
  { u with
    username := d.username.getD u.username
    email := d.email.getD u.email
    first_name := d.first_name.getD u.first_name
    last_name := d.last_name.getD u.last_name }

def users_me (u : User) (d : UserUpdateData) (isValid : Bool) : Response × User :=
  if isValid then
    let updated := serializer_update_user u d
    ({ statusCode := 200
       body := .userView updated.username updated.email updated.first_name updated.last_name },
     updated)
  else
    ({ statusCode := 400, body := .detail "serializer errors" }, u)

/- ===== C10: UserViewSet.block_user =====
  user = self.get_object()
  user.is_active = False; user.save()
  return Response({detail}, status=200)
Only the fetched row is written back, with is_active cleared and every other
attribute as fetched; pks are unique in the store. -/

def block_user (users : List User) (pk : Nat) : Except DjangoError (Response × List User) :=
  match getObjectOr404User users pk with
  | .error e => .error e
  | .ok _ =>
      .ok ({ statusCode := 200, body := .detail "user blocked" },
           users.map (fun u => if u.id == pk then { u with is_active := false } else u))

/- ===== Concrete data used by evaluations and witnesses ===== -/

/-- A recipe nobody favorited and nobody put in a cart. -/
def plainRecipe : Recipe :=
  { id := 1, name := "kasha", image := "kasha.png", cooking_time := 5,
    favorites := [], groceries_list := [] }

def salt : Ingredient := { id := 1, name := "Salt", measurement_unit := "g" }

def pepper : Ingredient := { id := 2, name := "Pepper", measurement_unit := "g" }

def sugar : Ingredient := { id := 3, name := "Sugar", measurement_unit := "g" }

def saltIngredients : List Ingredient := [salt, pepper, sugar]

/-- Two recipes in the cart of user 7, plus one recipe outside every cart. -/
def saltRecipes : List Recipe :=
  [ { id := 1, name := "soup", image := "soup.png", cooking_time := 30,
      favorites := [], groceries_list := [7] },
    { id := 2, name := "stew", image := "stew.png", cooking_time := 60,
      favorites := [], groceries_list := [7] },
    { id := 3, name := "cake", image := "cake.png", cooking_time := 90,
      favorites := [], groceries_list := [] } ]

/-- Salt appears in the two cart recipes with amounts 5 and 10; pepper in one
cart recipe; sugar only in the recipe outside the cart. -/
def saltRows : List RecipesIngredients :=
  [ { recipe_id := 1, ingredient_id := 1, amount := 5 },
    { recipe_id := 2, ingredient_id := 1, amount := 10 },
    { recipe_id := 1, ingredient_id := 2, amount := 3 },
    { recipe_id := 3, ingredient_id := 3, amount := 100 } ]

end Foodgram

namespace Foodgram

/- ===== Theorems ===== -/

/-- C1: for an anonymous requester (user.pk is None) the claim says both
derived booleans are false for every recipe; evaluating get_queryset on a
recipe with no favorites and no cart entries, the NULL-extended rows of the
two LEFT OUTER JOINs satisfy the compiled `IS NULL` conditions, so the
annotation returns both booleans true. -/
theorem get_queryset_anonymous_flags_true :
    get_queryset none [plainRecipe]
      = [{ recipe := plainRecipe, is_favorited := true, is_in_shopping_cart := true }] := by
  rfl

theorem totalFor_cons (g : ShoppingItem) (rest : List ShoppingItem) (n u : String) :
    totalFor (g :: rest) n u
      = if g.ingredient_name == n && g.measurement_unit == u then g.total_amount
        else totalFor rest n u := by
  cases h : (g.ingredient_name == n && g.measurement_unit == u) with
  | true => simp [totalFor, List.find?, h]
  | false => simp [totalFor, List.find?, h]

theorem totalFor_addToGroups (gs : List ShoppingItem) (nn uu n u : String) (a : Nat) :
    totalFor (addToGroups gs nn uu a) n u
      = totalFor gs n u + (if nn == n && uu == u then a else 0) := by
  induction gs with
  | nil =>
      cases h : (nn == n && uu == u) with
      | true => simp [addToGroups, totalFor, List.find?, h]
      | false => simp [addToGroups, totalFor, List.find?, h]
  | cons g rest ih =>
      by_cases hg : (g.ingredient_name == nn && g.measurement_unit == uu) = true
      · obtain ⟨h1, h2⟩ := Bool.and_eq_true_iff.mp hg
        have e1 : g.ingredient_name = nn := by simpa using h1
        have e2 : g.measurement_unit = uu := by simpa using h2
        subst e1; subst e2
        simp only [addToGroups, hg, if_true]
        rw [totalFor_cons, totalFor_cons]
        cases h : (g.ingredient_name == n && g.measurement_unit == u) with
        | true => simp [h]
        | false => simp [h]
      · simp only [addToGroups, hg, Bool.false_eq_true, if_false]
        rw [totalFor_cons, totalFor_cons, ih]
        cases hm : (g.ingredient_name == n && g.measurement_unit == u) with
        | true =>
            simp only [if_true]
            cases hk : (nn == n && uu == u) with
            | true =>
                exfalso
                obtain ⟨h1, h2⟩ := Bool.and_eq_true_iff.mp hm
                obtain ⟨h3, h4⟩ := Bool.and_eq_true_iff.mp hk
                apply hg
                have e1 : g.ingredient_name = n := by simpa using h1
                have e2 : g.measurement_unit = u := by simpa using h2
                have e3 : nn = n := by simpa using h3
                have e4 : uu = u := by simpa using h4
                simp [e1, e2, e3, e4]
            | false => simp
        | false => simp

theorem hasKey_cons (g : ShoppingItem) (rest : List ShoppingItem) (n u : String) :
    hasKey (g :: rest) n u
      = ((g.ingredient_name == n && g.measurement_unit == u) || hasKey rest n u) := by
  simp [hasKey]

theorem hasKey_addToGroups (gs : List ShoppingItem) (nn uu n u : String) (a : Nat) :
    hasKey (addToGroups gs nn uu a) n u
      = (hasKey gs n u || (nn == n && uu == u)) := by
  induction gs with
  | nil => simp [addToGroups, hasKey]
  | cons g rest ih =>
      by_cases hg : (g.ingredient_name == nn && g.measurement_unit == uu) = true
      · obtain ⟨h1, h2⟩ := Bool.and_eq_true_iff.mp hg
        have e1 : g.ingredient_name = nn := by simpa using h1
        have e2 : g.measurement_unit = uu := by simpa using h2
        subst e1; subst e2
        simp only [addToGroups, hg, if_true]
        rw [hasKey_cons, hasKey_cons]
        cases h : (g.ingredient_name == n && g.measurement_unit == u) with
        | true => simp [h]
        | false =>
            simp only [h, Bool.false_or]
            cases hrest : hasKey rest n u <;> simp [hrest, h]
      · simp only [addToGroups, hg, Bool.false_eq_true, if_false]
        rw [hasKey_cons, hasKey_cons, ih]
        cases h : (g.ingredient_name == n && g.measurement_unit == u) <;>
          simp [Bool.or_assoc]

theorem totalFor_foldl (ings : List Ingredient) (rows : List RecipesIngredients)
    (gs : List ShoppingItem) (n u : String) :
    totalFor (rows.foldl (shoppingStep ings) gs) n u
      = totalFor gs n u + (rows.map (rowKeyAmount ings n u)).sum := by
  induction rows generalizing gs with
  | nil => simp
  | cons row rest ih =>
      simp only [List.foldl_cons, List.map_cons, List.sum_cons]
      rw [ih]
      have hstep : totalFor (shoppingStep ings gs row) n u
          = totalFor gs n u + rowKeyAmount ings n u row := by
        simp only [shoppingStep, rowKeyAmount]
        cases hfind : ings.find? (fun i => i.id == row.ingredient_id) with
        | none => simp
        | some ing => rw [totalFor_addToGroups]
      rw [hstep]
      omega

theorem hasKey_foldl (ings : List Ingredient) (rows : List RecipesIngredients)
    (gs : List ShoppingItem) (n u : String) :
    hasKey (rows.foldl (shoppingStep ings) gs) n u
      = (hasKey gs n u || rows.any (rowResolvesKey ings n u)) := by
  induction rows generalizing gs with
  | nil => simp
  | cons row rest ih =>
      simp only [List.foldl_cons, List.any_cons]
      rw [ih]
      have hstep : hasKey (shoppingStep ings gs row) n u
          = (hasKey gs n u || rowResolvesKey ings n u row) := by
        simp only [shoppingStep, rowResolvesKey]
        cases hfind : ings.find? (fun i => i.id == row.ingredient_id) with
        | none => simp
        | some ing => rw [hasKey_addToGroups]
      rw [hstep, Bool.or_assoc]

/-- C2: the shopping-list export keeps exactly the RecipesIngredients rows of
the recipes in the user's cart (first conjunct), its exported total for any
key (name, unit) is the sum of the `amount` of those rows resolving to that
key (second), a key appears in the export iff some cart row references it
(third); on the concrete store where the cart recipes of user 7 hold Salt(g)
with amounts 5 and 10, the Salt(g) total is 15 and Sugar(g), referenced only
outside the cart, is absent (last two). -/
theorem download_shopping_cart_aggregates (userPk : Nat) (recipes : List Recipe)
    (ris : List RecipesIngredients) (ings : List Ingredient) (n u : String) :
    (∀ row : RecipesIngredients,
        row ∈ cartRows userPk recipes ris
          ↔ row ∈ ris ∧ ∃ r ∈ recipes, r.id = row.recipe_id ∧ userPk ∈ r.groceries_list) ∧
    totalFor (download_shopping_cart userPk recipes ris ings) n u
      = ((cartRows userPk recipes ris).map (rowKeyAmount ings n u)).sum ∧
    hasKey (download_shopping_cart userPk recipes ris ings) n u
      = (cartRows userPk recipes ris).any (rowResolvesKey ings n u) ∧
    totalFor (download_shopping_cart 7 saltRecipes saltRows saltIngredients) "Salt" "g" = 15 ∧
    hasKey (download_shopping_cart 7 saltRecipes saltRows saltIngredients) "Sugar" "g"
      = false := by
  refine ⟨?_, ?_, ?_, ?_, ?_⟩
  · intro row
    simp [cartRows, List.mem_filter]
  · unfold download_shopping_cart
    rw [totalFor_foldl]
    simp [totalFor]
  · unfold download_shopping_cart
    rw [hasKey_foldl]
    simp [hasKey]
  · decide
  · decide

/-- C3: adding a recipe to favorites or to the cart (`table` is the user's
side of the target relation, reached through user.favorites resp.
user.groceries_list) when the pair already exists answers the
duplicate-relation 400 client error and leaves the relation unchanged, so
its row count does not increase; when the pair is absent it inserts the pair
and answers 201 carrying the brief recipe representation. -/
theorem cart_favorite_add_semantics (recipes : List Recipe) (pk : Nat)
    (table : List Nat) (recipe : Recipe)
    (hget : objectsGetRecipe recipes pk = .ok recipe) :
    (recipe.id ∈ table →
        cart_favorite_method recipes pk table
          = .ok ({ statusCode := 400, body := .empty }, table)) ∧
    (recipe.id ∉ table →
        cart_favorite_method recipes pk table
          = .ok ({ statusCode := 201
                   body := .briefRecipe recipe.id recipe.name recipe.image recipe.cooking_time },
                 table ++ [recipe.id])) := by
  constructor
  · intro hmem
    unfold cart_favorite_method
    rw [hget]
    simp [hmem]
  · intro hmem
    unfold cart_favorite_method
    rw [hget]
    simp [hmem]

theorem cart_favorite_add_semantics_witness :
    cart_favorite_method [plainRecipe] 1 [plainRecipe.id]
      = .ok ({ statusCode := 400, body := .empty }, [plainRecipe.id]) ∧
    cart_favorite_method [plainRecipe] 1 []
      = .ok ({ statusCode := 201
               body := .briefRecipe plainRecipe.id plainRecipe.name
                 plainRecipe.image plainRecipe.cooking_time },
             [plainRecipe.id]) :=
  ⟨(cart_favorite_add_semantics [plainRecipe] 1 [plainRecipe.id] plainRecipe rfl).1
      (by decide),
   (cart_favorite_add_semantics [plainRecipe] 1 [] plainRecipe rfl).2
      (by decide)⟩

/-- C4: at an add-favorite or add-to-cart request whose recipe id is absent
from the store, `Recipe.objects.get` raises Recipe.DoesNotExist; the
`except Http404` clause does not catch it, the exception escapes the view,
and the framework answers 500 — a server fault, where the claim requires a
client error. -/
theorem cart_favorite_missing_recipe_server_fault :
    cart_favorite_method [] 1 [] = .error .doesNotExist ∧
    frameworkStatus .doesNotExist = 500 ∧
    ¬ (400 ≤ frameworkStatus .doesNotExist ∧ frameworkStatus .doesNotExist < 500) := by
  refine ⟨rfl, rfl, by decide⟩

/-- C5: self-subscription always answers the 400 client error and inserts no
Subscription row, whatever the prior subscription state `subs` is: the
`user == subscription` check runs before the existence check and before the
create. The hypothesis states that the requesting user's row exists. -/
theorem subscribe_self_always_fails (users : List User) (subs : List Subscription)
    (userPk : Nat) (h : (users.find? (fun v => v.id == userPk)).isSome = true) :
    subscribe_post users subs userPk userPk
      = .ok ({ statusCode := 400, body := .detail "cannot subscribe to yourself" },
             subs) := by
  obtain ⟨target, htarget⟩ := Option.isSome_iff_exists.mp h
  have hid := List.find?_some htarget
  have e : target.id = userPk := by simpa using hid
  unfold subscribe_post getObjectOr404User
  rw [htarget]
  simp [e]

def sampleUser : User :=
  { id := 4, username := "ann", email := "ann@example.com",
    first_name := "Ann", last_name := "Lee", is_active := true }

theorem subscribe_self_always_fails_witness :
    subscribe_post [sampleUser] [{ user := 4, subscription := 4 }] 4 4
      = .ok ({ statusCode := 400, body := .detail "cannot subscribe to yourself" },
             [{ user := 4, subscription := 4 }]) :=
  subscribe_self_always_fails [sampleUser] [{ user := 4, subscription := 4 }] 4
    (by decide)

/-- C6: registration with a (username, email) pair identical to an existing
account answers 200 carrying that account's identity and leaves the user
store unchanged; with a pair matching no account it appends exactly one new
User row carrying the submitted identity. -/
theorem user_create_semantics (users : List User) (nextId : Nat)
    (username email : String) :
    (∀ u : User,
        users.find? (fun v => v.username == username && v.email == email) = some u →
        user_create users nextId username email
          = ({ statusCode := 200, body := .identity u.email u.username }, users)) ∧
    (users.find? (fun v => v.username == username && v.email == email) = none →
        user_create users nextId username email
          = ({ statusCode := 201, body := .identity email username },
             users ++ [{ id := nextId, username := username, email := email,
                         first_name := "", last_name := "", is_active := true }])
        ∧ (user_create users nextId username email).2.length = users.length + 1) := by
  constructor
  · intro u hu
    have hp := List.find?_some hu
    obtain ⟨h1, h2⟩ := Bool.and_eq_true_iff.mp hp
    have e1 : u.username = username := by simpa using h1
    have e2 : u.email = email := by simpa using h2
    unfold user_create
    rw [hu, e1, e2]
  · intro hnone
    unfold user_create serializer_save_new_user
    rw [hnone]
    exact ⟨rfl, by simp⟩

theorem user_create_semantics_witness :
    user_create [sampleUser] 9 "ann" "ann@example.com"
      = ({ statusCode := 200, body := .identity sampleUser.email sampleUser.username },
         [sampleUser]) ∧
    user_create [sampleUser] 9 "bob" "bob@example.com"
      = ({ statusCode := 201, body := .identity "bob@example.com" "bob" },
         [sampleUser, { id := 9, username := "bob", email := "bob@example.com",
                        first_name := "", last_name := "", is_active := true }]) :=
  ⟨(user_create_semantics [sampleUser] 9 "ann" "ann@example.com").1 sampleUser
      (by decide),
   ((user_create_semantics [sampleUser] 9 "bob" "bob@example.com").2 (by decide)).1⟩

/-- C7: removing a recipe from favorites or from the cart when the pair is
absent answers the generic 400 client error (not a not-found status) and
leaves the relation unchanged; when the pair is present it deletes exactly
that membership and answers 204 with no body. -/
theorem cart_favorite_delete_semantics (recipes : List Recipe) (pk : Nat)
    (table : List Nat) (recipe : Recipe)
    (hget : getObjectOr404Recipe recipes pk = .ok recipe) :
    (recipe.id ∈ table →
        ∃ t2, cart_favorite_method_delete recipes pk table
            = .ok ({ statusCode := 204, body := .empty }, t2)
          ∧ ∀ x : Nat, x ∈ t2 ↔ (x ∈ table ∧ x ≠ recipe.id)) ∧
    (recipe.id ∉ table →
        cart_favorite_method_delete recipes pk table
          = .ok ({ statusCode := 400, body := .empty }, table)) := by
  constructor
  · intro hmem
    refine ⟨table.filter (fun x => x != recipe.id), ?_, ?_⟩
    · unfold cart_favorite_method_delete
      rw [hget]
      simp [hmem]
    · intro x
      simp [List.mem_filter]
  · intro hmem
    unfold cart_favorite_method_delete
    rw [hget]
    simp [hmem]

theorem cart_favorite_delete_semantics_witness :
    (∃ t2, cart_favorite_method_delete [plainRecipe] 1 [plainRecipe.id]
        = .ok ({ statusCode := 204, body := .empty }, t2)
      ∧ ∀ x : Nat, x ∈ t2 ↔ (x ∈ [plainRecipe.id] ∧ x ≠ plainRecipe.id)) ∧
    cart_favorite_method_delete [plainRecipe] 1 []
      = .ok ({ statusCode := 400, body := .empty }, []) :=
  ⟨(cart_favorite_delete_semantics [plainRecipe] 1 [plainRecipe.id] plainRecipe rfl).1
      (by decide),
   (cart_favorite_delete_semantics [plainRecipe] 1 [] plainRecipe rfl).2
      (by decide)⟩

/-- C8: logout answers 204 on success and the 401 authentication-failure
response whenever credential revocation raises, for every input; in
particular its status is always below 500, never a server error. -/
theorem token_logout_never_server_error (access refreshTok : Option String)
    (validRefresh : String → Bool) (st : TokenState) :
    ((token_logout_post access refreshTok validRefresh st).1.statusCode = 204 ∨
     (token_logout_post access refreshTok validRefresh st).1.statusCode = 401) ∧
    (token_logout_post access refreshTok validRefresh st).1.statusCode < 500 ∧
    (∀ f : TokenFault,
        revoke_credentials access refreshTok validRefresh st = .error f →
        (token_logout_post access refreshTok validRefresh st).1
          = { statusCode := 401, body := .detail "credentials were not provided" }) := by
  cases h : revoke_credentials access refreshTok validRefresh st with
  | ok st2 =>
      refine ⟨Or.inl ?_, ?_, fun f hf => ?_⟩
      · simp [token_logout_post, h]
      · simp [token_logout_post, h]
      · exact Except.noConfusion hf
  | error f0 =>
      refine ⟨Or.inr ?_, ?_, fun f hf => ?_⟩
      · simp [token_logout_post, h]
      · simp [token_logout_post, h]
      · simp [token_logout_post, h]

theorem token_logout_never_server_error_witness :
    (token_logout_post none (some "expired") (fun _ => false)
        { outstanding := [], blacklist := [] }).1
      = { statusCode := 401, body := .detail "credentials were not provided" } :=
  (token_logout_never_server_error none (some "expired") (fun _ => false)
    { outstanding := [], blacklist := [] }).2.2 .tokenError rfl

def meSampleUser : User :=
  { id := 2, username := "old", email := "old@example.com",
    first_name := "F", last_name := "L", is_active := true }

def meSampleUpdate : UserUpdateData :=
  { username := some "new", email := none, first_name := none, last_name := none }

/-- C9: the me endpoint is not read-only: on a valid body it persists the
field-wise merge of the body into the requesting user before answering
(first conjunct), a body with no fields leaves the record unchanged
(second), and a body carrying a changed username mutates the stored user
(third, at a concrete input). -/
theorem users_me_not_read_only :
    (∀ (u : User) (d : UserUpdateData),
        (users_me u d true).2 = serializer_update_user u d) ∧
    (∀ u : User, (users_me u emptyUpdate true).2 = u) ∧
    (users_me meSampleUser meSampleUpdate true).2 ≠ meSampleUser := by
  refine ⟨fun u d => rfl, fun u => rfl, by decide⟩

theorem users_me_not_read_only_witness :
    (users_me meSampleUser emptyUpdate true).2 = meSampleUser :=
  users_me_not_read_only.2.1 meSampleUser

/-- C10: block_user answers 200 and rewrites the store so that the record of
the target pk keeps its id, username, email, first and last name and gets
is_active false, while every record of any other pk is unchanged in every
attribute, position by position. -/
theorem block_user_frame (users : List User) (pk : Nat) (target : User)
    (h : getObjectOr404User users pk = .ok target) :
    ∃ users2 : List User,
      block_user users pk
        = .ok ({ statusCode := 200, body := .detail "user blocked" }, users2) ∧
      users2.length = users.length ∧
      ∀ i : Nat, ∀ u : User, users[i]? = some u →
        ∃ v : User, users2[i]? = some v ∧
          v.id = u.id ∧ v.username = u.username ∧ v.email = u.email ∧
          v.first_name = u.first_name ∧ v.last_name = u.last_name ∧
          v.is_active = (if u.id = pk then false else u.is_active) := by
  refine ⟨users.map (fun u => if u.id == pk then { u with is_active := false } else u),
    ?_, by simp, ?_⟩
  · unfold block_user
    rw [h]
  · intro i u hu
    refine ⟨if u.id == pk then { u with is_active := false } else u, ?_, ?_⟩
    · rw [List.getElem?_map, hu]
      rfl
    · by_cases hid : u.id = pk
      · simp [hid]
      · simp [hid]

theorem block_user_frame_witness :
    ∃ users2 : List User,
      block_user [sampleUser, meSampleUser] 4
        = .ok ({ statusCode := 200, body := .detail "user blocked" }, users2) ∧
      users2.length = [sampleUser, meSampleUser].length ∧
      ∀ i : Nat, ∀ u : User, [sampleUser, meSampleUser][i]? = some u →
        ∃ v : User, users2[i]? = some v ∧
          v.id = u.id ∧ v.username = u.username ∧ v.email = u.email ∧
          v.first_name = u.first_name ∧ v.last_name = u.last_name ∧
          v.is_active = (if u.id = 4 then false else u.is_active) :=
  block_user_frame [sampleUser, meSampleUser] 4 sampleUser rfl

end Foodgram
